import Mathlib

/-!
Shallow embedding of src/modules/core/src/webgl/vertex-array.js
(the VertexArray class of luma.gl's core module) together with
theorems checking the specification's claims about it.

Numbers are modelled as Nat/Int; JavaScript Infinity in draw-parameter
counters is modelled as the value none of Option Nat; code that can throw
(assertions, the attribute-type error) returns Except String.
Collaborator classes that are not part of the repository snapshot
(Buffer, Accessor, VertexArrayObject, program configuration) are modelled
from the spec, as recorded in their doc comments.
-/

namespace VertexArrayJS

/-- WebGL buffer-target enum value GL.ELEMENT_ARRAY_BUFFER. -/
def GL_ELEMENT_ARRAY_BUFFER : Nat := 34963

/-- WebGL buffer-target enum value GL.ARRAY_BUFFER. -/
def GL_ARRAY_BUFFER : Nat := 34962

/-- Modelled from the spec: the data accessor attached to an attribute
("each either a GPU buffer + data accessor, or a small constant value").
The accessor class itself is not under src/; we keep the three option
fields the vertex-array code reads (size, type, divisor), each possibly
absent (undefined in JavaScript). -/
structure Accessor where
  size : Option Nat
  type : Option Nat
  divisor : Option Nat
deriving Repr, DecidableEq

/-- The empty accessor object (new Accessor() / an {} options literal). -/
def Accessor.empty : Accessor := ⟨none, none, none⟩

/-- JavaScript test divisor > 0, where an undefined divisor compares false. -/
def Accessor.isInstanced (a : Accessor) : Bool :=
  match a.divisor with
  | some d => d > 0
  | none => false

/-- Right-biased merge of one option field (a later defined field wins). -/
def mergeField (a b : Option Nat) : Option Nat :=
  match b with
  | some v => some v
  | none => a

/-- Modelled from the spec: Accessor.getOptions (accessor class not under
src/) merges accessor option objects field by field, later objects
overriding earlier ones; the buffer/array value argument itself is treated
as contributing no accessor fields. -/
def Accessor.getOptions (base a1 a2 : Accessor) : Accessor :=
  ⟨mergeField (mergeField base.size a1.size) a2.size,
   mergeField (mergeField base.type a1.type) a2.type,
   mergeField (mergeField base.divisor a1.divisor) a2.divisor⟩

/-- Modelled from the spec: "a buffer object wrapping a GPU memory
allocation" (the Buffer class is not under src/). Only the data the
vertex-array code reads is kept: the bind target, the buffer's own
accessor, its element type, and the derived vertex/element counts for a
given accessor, kept abstract as functions. -/
structure Buffer where
  target : Nat
  accessor : Accessor
  type : Nat
  getVertexCount : Accessor → Nat
  getElementCount : Accessor → Nat

/-- A value stored in the vertex attribute table: either a Buffer or a
constant (a typed array, i.e. an ArrayBuffer view, or a plain array). -/
inductive AttrValue where
  | buf (b : Buffer)
  | constTyped (xs : List Int)
  | constArray (xs : List Int)

/-- Locations or names used to address attributes. Numeric values and
numeric strings are represented as loc (Number of them is finite); a
name is a string on which Number yields NaN. -/
inductive LocOrName where
  | loc (n : Int)
  | name (s : String)
deriving Repr, DecidableEq

/-- Modelled from the spec: the shader attribute information a program
configuration returns for one attribute (configuration class not under
src/). -/
structure AttrInfo where
  accessor : Accessor

/-- Modelled from the spec: "resolve them against a shader's attribute
locations" — the program configuration object (not under src/), with
getLocation possibly returning a non-finite value (none) for unknown
names, and getAttributeInfo possibly returning no info. -/
structure Configuration where
  getLocation : LocOrName → Option Int
  getAttributeInfo : LocOrName → Option AttrInfo

/-- Modelled from the spec: "a delegate object that is either a real
vertex-array-object extension handle or a shimmed default" (the
VertexArrayObject class is not under src/). -/
structure VAObj where
  isDefaultArray : Bool
  MAX_ATTRIBUTES : Nat

/-- Modelled from the spec: the WebGL context, reduced to what the
vertex-array module queries of it: vertex-array-object support and the
attribute-table size. -/
structure GLContext where
  vaoSupported : Bool
  maxVertexAttribs : Nat

/-- Modelled from the spec: VertexArrayObject.isSupported(gl). -/
def VertexArrayObject.isSupported (gl : GLContext) : Bool := gl.vaoSupported

/-- Modelled from the spec: new VertexArrayObject(gl), a real
vertex-array-object extension handle. -/
def VertexArrayObject.newArray (gl : GLContext) : VAObj :=
  ⟨false, gl.maxVertexAttribs⟩

/-- Modelled from the spec: VertexArrayObject.getDefaultArray(gl), the
shimmed default array. -/
def VertexArrayObject.getDefaultArray (gl : GLContext) : VAObj :=
  ⟨true, gl.maxVertexAttribs⟩

/-- The draw-parameter record while _updateDrawParams is accumulating it:
the three counters start at Infinity (none); elementCount and indexType
are keys only added when an element buffer is set. -/
structure DrawParamsAcc where
  isIndexed : Bool
  isInstanced : Bool
  indexCount : Option Nat
  vertexCount : Option Nat
  instanceCount : Option Nat
  elementCount : Option Nat
  indexType : Option Nat
deriving Repr, DecidableEq

/-- The draw-parameter record after the post-calculation checks of
_updateDrawParams: vertexCount is finite (the assertion passed), and the
indexCount/instanceCount counters have had Infinity replaced by 0. -/
structure DrawParamsF where
  isIndexed : Bool
  isInstanced : Bool
  indexCount : Nat
  vertexCount : Nat
  instanceCount : Nat
  elementCount : Option Nat
  indexType : Option Nat
deriving Repr, DecidableEq

/-- The mutable state of a VertexArray instance (the fields assigned in
the constructor and sealed by Object.seal). The gl handle and the debug id
carry no behaviour and are omitted; this.buffer (the attribute-zero dummy
buffer) is tracked as a presence flag; this.unused keeps the keys recorded
as unused. -/
structure VAState where
  configuration : Option Configuration
  elements : Option Buffer
  values : List (Option AttrValue)
  accessors : List (Option Accessor)
  unused : List LocOrName
  drawParams : Option DrawParamsF
  vertexArrayObject : VAObj
  bindOnUse : Bool
  buffer : Bool

/-- The error message thrown by setAttributes for unsupported values
(constant ERR_ATTRIBUTE_TYPE at the top of vertex-array.js). -/
def ERR_ATTRIBUTE_TYPE : String :=
  "VertexArray: attributes must be Buffers or constants (i.e. typed array)"

/-- JavaScript array assignment xs[i] = v: writing past the current end
grows the array to length i + 1, filling the gap with holes (undefined,
modelled as none like null since both are falsy where the table is read). -/
def listSet (xs : List (Option α)) (i : Nat) (v : Option α) : List (Option α) :=
  if i < xs.length then xs.set i v
  else xs ++ List.replicate (i - xs.length) none ++ [v]

/-- VertexArray.reset: clears elements, refills both tables with
MAX_ATTRIBUTES nulls, empties unused and invalidates drawParams. -/
def reset (st : VAState) : VAState :=
  { st with
    elements := none,
    values := List.replicate st.vertexArrayObject.MAX_ATTRIBUTES none,
    accessors := List.replicate st.vertexArrayObject.MAX_ATTRIBUTES none,
    unused := [],
    drawParams := none }

/-- VertexArray.clearDrawParams. -/
def clearDrawParams (st : VAState) : VAState :=
  { st with drawParams := none }

/-- VertexArray._getAttributeIndex: with a configuration, defer to
configuration.getLocation (none models a non-finite result); without one,
Number(locationOrName) is the numeric value when finite, and the NaN case
(a non-numeric name) falls through to return -1 — which is finite. -/
def getAttributeIndex (cfg : Option Configuration) (k : LocOrName) : Option Int :=
  match cfg with
  | some c => c.getLocation k
  | none =>
    match k with
    | .loc n => some n
    | .name _ => some (-1)

/-- VertexArray._getAttributeInfo. -/
def getAttributeInfo (st : VAState) (k : LocOrName) : Option AttrInfo :=
  st.configuration.bind fun c => c.getAttributeInfo k

/-- Outcome of _resolveLocationAndAccessor: either the non-finite-location
branch was taken (the method returns this, so the caller destructures an
undefined location and skips), or a location and merged accessor. -/
inductive ResolveResult where
  | unused
  | resolved (location : Int) (accessor : Accessor)

/-- VertexArray._resolveLocationAndAccessor: non-finite locations record
the value as unused; otherwise the accessor is assembled from the
configuration's attribute info (or new Accessor()) overridden by
accessor1 and accessor2, and the assertion requires the merged size and
type to be finite (present). -/
def resolveLocationAndAccessor (st : VAState) (k : LocOrName)
    (accessor1 accessor2 : Accessor) :
    Except String (VAState × ResolveResult) :=
  match getAttributeIndex st.configuration k with
  | none => .ok ({ st with unused := k :: st.unused }, .unused)
  | some location =>
    let base :=
      match getAttributeInfo st k with
      | some info => info.accessor
      | none => Accessor.empty
    let accessor := base.getOptions accessor1 accessor2
    if accessor.size.isSome && accessor.type.isSome then
      .ok (st, .resolved location accessor)
    else
      .error "assert failed: Number.isFinite(size) and Number.isFinite(type)"

/-- VertexArray.setElementBuffer: stores the element buffer, invalidates
drawParams (the delegate call to vertexArrayObject.setElementBuffer only
touches GL state). -/
def setElementBuffer (st : VAState) (elementBuffer : Option Buffer) : VAState :=
  clearDrawParams { st with elements := elementBuffer }

/-- VertexArray.setElements (deprecated alias of setElementBuffer). -/
def setElements (st : VAState) (elementBuffer : Option Buffer) : VAState :=
  setElementBuffer st elementBuffer

/-- VertexArray.setBuffer: buffers whose target is
GL.ELEMENT_ARRAY_BUFFER are routed to setElements regardless of the
location; otherwise the location and accessor are resolved and, when the
location is >= 0, the tables are updated and drawParams invalidated. -/
def setBuffer (st : VAState) (k : LocOrName) (buffer : Buffer)
    (optAccessor : Accessor) : Except String VAState :=
  if buffer.target == GL_ELEMENT_ARRAY_BUFFER then
    .ok (setElements st (some buffer))
  else
    (resolveLocationAndAccessor st k buffer.accessor optAccessor).map
      fun (p : VAState × ResolveResult) =>
        match p.2 with
        | .unused => p.1
        | .resolved location accessor =>
          if 0 ≤ location then
            clearDrawParams
              { p.1 with
                values := listSet p.1.values location.toNat (some (.buf buffer)),
                accessors := listSet p.1.accessors location.toNat (some accessor) }
          else p.1

/-- VertexArrayObject._normalizeConstantArrayValue, modelled from the
spec as the identity on the constant's contents (the delegate class is
not under src/ and the claims do not depend on the normalised numbers). -/
def normalizeConstantArrayValue (v : AttrValue) (_a : Accessor) : AttrValue := v

/-- VertexArray.setConstant: resolves the location with an empty
accessor1, and when the location is >= 0 stores the normalised constant
and the accessor and invalidates drawParams (the delegate enable call
only touches GL state). -/
def setConstant (st : VAState) (k : LocOrName) (arrayValue : AttrValue)
    (optAccessor : Accessor) : Except String VAState :=
  (resolveLocationAndAccessor st k Accessor.empty optAccessor).map
    fun (p : VAState × ResolveResult) =>
      match p.2 with
      | .unused => p.1
      | .resolved location accessor =>
        if 0 ≤ location then
          clearDrawParams
            { p.1 with
              values := listSet p.1.values location.toNat
                (some (normalizeConstantArrayValue arrayValue accessor)),
              accessors := listSet p.1.accessors location.toNat (some accessor) }
        else p.1

/-- An element of a plain JavaScript array passed as an attribute value:
the dispatch in setAttributes inspects whether the first element is a
Buffer, and uses the second element as an accessor. -/
inductive JSElem where
  | buf (b : Buffer)
  | accessorObj (a : Accessor)
  | num (n : Int)

/-- A JavaScript value appearing in the attributes map handed to
setAttributes: a Buffer, a typed array (ArrayBuffer view), a plain array,
or anything else (which throws). -/
inductive JSValue where
  | buf (b : Buffer)
  | typedArray (xs : List Int)
  | plainArray (xs : List JSElem)
  | other

/-- The second array element used as the accessor in the
[buffer, accessor] signature; a missing or non-object second element
contributes no accessor fields (an undefined argument falls back to the
default {} parameter). -/
def secondAsAccessor (rest : List JSElem) : Accessor :=
  match rest with
  | .accessorObj a :: _ => a
  | _ => Accessor.empty

/-- The contents of a plain array stored as a constant: its numeric
entries (non-numeric entries carry no behaviour in the claims). -/
def plainArrayNums (xs : List JSElem) : List Int :=
  xs.filterMap fun e =>
    match e with
    | .num n => some n
    | _ => none

/-- The body of the for-in loop of setAttributes for one key/value pair:
Buffer values go to setBuffer; non-empty arrays headed by a Buffer go to
setBuffer with the second element as accessor; ArrayBuffer views and
remaining plain arrays go to setConstant; anything else throws
ERR_ATTRIBUTE_TYPE. -/
def setAttributesStep (st : VAState) (k : LocOrName) (value : JSValue) :
    Except String VAState :=
  match value with
  | .buf b => setBuffer st k b Accessor.empty
  | .plainArray (.buf b :: rest) => setBuffer st k b (secondAsAccessor rest)
  | .typedArray xs => setConstant st k (.constTyped xs) Accessor.empty
  | .plainArray xs => setConstant st k (.constArray (plainArrayNums xs)) Accessor.empty
  | .other => .error ERR_ATTRIBUTE_TYPE

/-- VertexArray.setAttributes over the (key, value) pairs of the
attributes object, in enumeration order; the surrounding
vertexArrayObject.bind wrapper and the final gl.bindBuffer(ARRAY_BUFFER,
null) only touch GL state. -/
def setAttributes (st : VAState) (attrs : List (LocOrName × JSValue)) :
    Except String VAState :=
  attrs.foldlM (fun s kv => setAttributesStep s kv.1 kv.2) st

/-- The props object accepted by setProps/initialize; a some field models
presence of the key. The program key carries the configuration extracted
by props.program and props.program.configuration; the bindOnUse key
carries the value read by the (ineffective) bindOnUse branch. -/
structure VAProps where
  program : Option (Option Configuration)
  configuration : Option (Option Configuration)
  attributes : Option (List (LocOrName × JSValue))
  elements : Option (Option Buffer)
  bindOnUse : Option Bool

/-- The empty props object ({}). -/
def VAProps.empty : VAProps := ⟨none, none, none, none, none⟩

/-- The first two branches of setProps: a program key installs
props.program && props.program.configuration, then a configuration key
overrides it. -/
def applyConfigProps (st : VAState) (props : VAProps) : VAState :=
  let st :=
    match props.program with
    | some cfg => { st with configuration := cfg }
    | none => st
  match props.configuration with
  | some cfg => { st with configuration := cfg }
  | none => st

/-- The elements branch of setProps: an elements key goes through
setElements. -/
def applyElemsProps (st : VAState) (props : VAProps) : VAState :=
  match props.elements with
  | some el => setElements st el
  | none => st

/-- VertexArray.setProps: program then configuration then attributes then
elements are applied in order; the final bindOnUse branch only reassigns
the local props parameter (props = props.bindOnUse) and so has no effect
on the instance. -/
def setProps (st : VAState) (props : VAProps) : Except String VAState := do
  let st := applyConfigProps st props
  let st ←
    match props.attributes with
    | some attrs => setAttributes st attrs
    | none => pure st
  pure (applyElemsProps st props)

/-- VertexArray.initialize (named initVA here): reset, clear the
configuration, force bindOnUse to false, then apply the props. -/
def initVA (st : VAState) (props : VAProps) : Except String VAState :=
  setProps { reset st with configuration := none, bindOnUse := false } props

/-- The VertexArray constructor: picks the real vertex-array-object when
supported and the shimmed default otherwise, then initializes from the
options. -/
def construct (gl : GLContext) (opts : VAProps) : Except String VAState :=
  let vao :=
    if VertexArrayObject.isSupported gl then VertexArrayObject.newArray gl
    else VertexArrayObject.getDefaultArray gl
  initVA
    { configuration := none, elements := none, values := [], accessors := [],
      unused := [], drawParams := none, vertexArrayObject := vao,
      bindOnUse := false, buffer := false } opts

/-- Math.min against a possibly-Infinity accumulator, with a
possibly-absent contribution (no contribution leaves the accumulator). -/
def minInfOpt (acc : Option Nat) (contrib : Option Nat) : Option Nat :=
  match contrib with
  | none => acc
  | some n =>
    match acc with
    | none => some n
    | some m => some (min m n)

/-- VertexArray._updateDrawParamsForLocation: a null value is skipped; a
set value with a null accessor would make the JavaScript destructuring
throw a TypeError (none); otherwise isInstanced is or-ed in and, for
Buffer values, the matching counter takes the min with
buffer.getVertexCount(accessor). -/
def updateDrawParamsForLocation (st : VAState) (dp : DrawParamsAcc)
    (location : Nat) : Option DrawParamsAcc :=
  match st.values.getD location none with
  | none => some dp
  | some value =>
    match st.accessors.getD location none with
    | none => none
    | some accessor =>
      let isInst := accessor.isInstanced
      let dp := { dp with isInstanced := dp.isInstanced || isInst }
      match value with
      | .buf buffer =>
        if isInst then
          some { dp with
            instanceCount := minInfOpt dp.instanceCount (some (buffer.getVertexCount accessor)) }
        else
          some { dp with
            vertexCount := minInfOpt dp.vertexCount (some (buffer.getVertexCount accessor)) }
      | _ => some dp

/-- The initial draw-parameter record of _updateDrawParams (all counters
at Infinity, no elementCount/indexType keys yet). -/
def initialDrawParams : DrawParamsAcc :=
  ⟨false, false, none, none, none, none, none⟩

/-- VertexArray._updateDrawParams: walk all MAX_ATTRIBUTES locations,
fold in the element buffer, assert vertexCount finite, and replace
Infinity by 0 in indexCount/instanceCount. none models a thrown
TypeError or failed assertion. -/
def updateDrawParams (st : VAState) : Option DrawParamsF := do
  let dp ← (List.range st.vertexArrayObject.MAX_ATTRIBUTES).foldlM
    (updateDrawParamsForLocation st) initialDrawParams
  let dp :=
    match st.elements with
    | some el =>
      { dp with
        elementCount := some (el.getElementCount el.accessor),
        isIndexed := true,
        indexType := some el.type }
    | none => dp
  match dp.vertexCount with
  | none => none
  | some vc =>
    some ⟨dp.isIndexed, dp.isInstanced, dp.indexCount.getD 0, vc,
      dp.instanceCount.getD 0, dp.elementCount, dp.indexType⟩

/-- VertexArray._updateAttributeZeroBuffer: when the value at location 0
is a typed-array constant, ensure the dummy attribute-zero buffer exists
(the length parameter is never read by the body). -/
def updateAttributeZeroBuffer (st : VAState) : VAState :=
  match st.values.getD 0 none with
  | some (.constTyped _) => { st with buffer := true }
  | _ => st

/-- VertexArray.getDrawParams: reuse the cached drawParams or recompute
them with _updateDrawParams, then run _updateAttributeZeroBuffer; none
models the assertion throwing out of _updateDrawParams. -/
def getDrawParams (st : VAState) : Option (VAState × DrawParamsF) :=
  match st.drawParams with
  | some dp => some (updateAttributeZeroBuffer st, dp)
  | none =>
    match updateDrawParams st with
    | none => none
    | some dp =>
      some (updateAttributeZeroBuffer { st with drawParams := some dp }, dp)

/-- Observable vertex-array-object events during bindForUse: the delegate
being bound, the callback func being invoked, the delegate being unbound. -/
inductive Ev where
  | bindVAO
  | invoke
  | unbindVAO
deriving Repr, DecidableEq

/-- VertexArray.bindBuffers: inside a vertexArrayObject.bind wrapper,
re-issues setBuffer(location, buffer) for every Buffer currently in the
values table (reading the live table at each location). -/
def bindBuffers (st : VAState) : Except String VAState :=
  (List.range st.vertexArrayObject.MAX_ATTRIBUTES).foldlM
    (fun s loc =>
      match s.values.getD loc none with
      | some (.buf b) => setBuffer s (.loc loc) b Accessor.empty
      | _ => .ok s) st

/-- VertexArray.unbindBuffers: inside a vertexArrayObject.bind wrapper,
ensures the dummy attribute-zero buffer exists and rebinds every
buffer-valued location to it (the per-location work is GL state only). -/
def unbindBuffers (st : VAState) : VAState :=
  { st with buffer := true }

/-- The state updates at the head of bindForUse: the attribute-zero
buffer is updated when length is finite (Number.isFinite), and — since
the hasVertexArrays property is never assigned on the sealed instance,
so !this.hasVertexArrays is always true — the element buffer is re-set
when present. -/
def bindForUsePre (st : VAState) (length : Option Int) : VAState :=
  let st :=
    match length with
    | some _ => updateAttributeZeroBuffer st
    | none => st
  match st.elements with
  | some el => setElementBuffer st (some el)
  | none => st

/-- VertexArray.bindForUse: after the pre-updates, constants are pushed
to the GL context (GL state only), the buffers are rebound (bindBuffers,
wrapped in a delegate bind/unbind), then the delegate is bound, func is
invoked, the delegate is unbound, and the buffers are unbound (again
wrapped). Returns the final state, func's return value, and the trace of
delegate bind/unbind and func-invocation events. func itself is modelled
as an opaque callback returning funcValue. -/
def bindForUse (st : VAState) (length : Option Int) (funcValue : α) :
    Except String (VAState × α × List Ev) := do
  let st ← bindBuffers (bindForUsePre st length)
  .ok (unbindBuffers st, funcValue,
    [Ev.bindVAO, Ev.unbindVAO, Ev.bindVAO, Ev.invoke, Ev.unbindVAO,
     Ev.bindVAO, Ev.unbindVAO])

/-- VertexArray.bind(func) = bindForUse(4, func). -/
def bindVA (st : VAState) (funcValue : α) :
    Except String (VAState × α × List Ev) :=
  bindForUse st (some 4) funcValue

/-! Claim-side helper predicates over the attribute table, following the
words of the claims: which locations hold a set attribute with an
instanced accessor, and the per-location vertex/instance count
contributions of buffer-valued attributes. -/

/-- The attribute at this location is set and its accessor present (a set
value with an absent accessor makes _updateDrawParamsForLocation throw a
TypeError when destructuring divisor). -/
def locOk (st : VAState) (loc : Nat) : Bool :=
  match st.values.getD loc none, st.accessors.getD loc none with
  | some _, none => false
  | _, _ => true

/-- The attribute at this location is set and its accessor has
divisor > 0. -/
def locInstanced (st : VAState) (loc : Nat) : Bool :=
  match st.values.getD loc none, st.accessors.getD loc none with
  | some _, some a => a.isInstanced
  | _, _ => false

/-- buffer.getVertexCount(accessor) for a buffer-valued attribute at this
location whose accessor divisor is not > 0. -/
def locVertexCount (st : VAState) (loc : Nat) : Option Nat :=
  match st.values.getD loc none, st.accessors.getD loc none with
  | some (.buf b), some a =>
    if a.isInstanced then none else some (b.getVertexCount a)
  | _, _ => none

/-- buffer.getVertexCount(accessor) for a buffer-valued attribute at this
location whose accessor divisor is > 0. -/
def locInstanceCount (st : VAState) (loc : Nat) : Option Nat :=
  match st.values.getD loc none, st.accessors.getD loc none with
  | some (.buf b), some a =>
    if a.isInstanced then some (b.getVertexCount a) else none
  | _, _ => none

/-- Some set attribute's accessor has divisor > 0. -/
def someInstancedAttr (st : VAState) : Bool :=
  (List.range st.vertexArrayObject.MAX_ATTRIBUTES).any (locInstanced st)

/-- The buffer.getVertexCount(accessor) values of all buffer-valued
attributes whose accessor divisor is not > 0. -/
def vertexCountList (st : VAState) : List Nat :=
  (List.range st.vertexArrayObject.MAX_ATTRIBUTES).filterMap (locVertexCount st)

/-- The buffer.getVertexCount(accessor) values of all buffer-valued
attributes whose accessor divisor is > 0. -/
def instanceCountList (st : VAState) : List Nat :=
  (List.range st.vertexArrayObject.MAX_ATTRIBUTES).filterMap (locInstanceCount st)

/-! Lemmas about the Math.min folds of _updateDrawParams. -/

theorem minInfOpt_none (acc : Option Nat) : minInfOpt acc none = acc := rfl

theorem updateDrawParamsForLocation_eq (st : VAState) (dp : DrawParamsAcc)
    (loc : Nat) :
    updateDrawParamsForLocation st dp loc =
      if locOk st loc then
        some { dp with
          isInstanced := dp.isInstanced || locInstanced st loc,
          vertexCount := minInfOpt dp.vertexCount (locVertexCount st loc),
          instanceCount := minInfOpt dp.instanceCount (locInstanceCount st loc) }
      else none := by
  unfold updateDrawParamsForLocation locOk locInstanced locVertexCount
    locInstanceCount
  cases hv : st.values.getD loc none with
  | none => simp [minInfOpt_none]
  | some v =>
    cases ha : st.accessors.getD loc none with
    | none => simp
    | some a =>
      cases v with
      | buf b => by_cases hi : a.isInstanced <;> simp [hi, minInfOpt]
      | constTyped xs => simp [minInfOpt_none]
      | constArray xs => simp [minInfOpt_none]

theorem foldlM_updateDP (st : VAState) (locs : List Nat) (dp : DrawParamsAcc) :
    locs.foldlM (updateDrawParamsForLocation st) dp =
      if locs.all (locOk st) then
        some { dp with
          isInstanced := dp.isInstanced || locs.any (locInstanced st),
          vertexCount :=
            (locs.map (locVertexCount st)).foldl minInfOpt dp.vertexCount,
          instanceCount :=
            (locs.map (locInstanceCount st)).foldl minInfOpt dp.instanceCount }
      else none := by
  induction locs generalizing dp with
  | nil => simp
  | cons l t ih =>
    rw [List.foldlM_cons, updateDrawParamsForLocation_eq]
    by_cases h : locOk st l
    · simp only [h, if_true, Option.bind_eq_bind, Option.some_bind]
      rw [ih]
      by_cases ht : t.all (locOk st)
      · simp [h, ht, Bool.or_assoc]
      · simp [h, ht]
    · simp [h]

theorem foldl_minInfOpt_some (xs : List (Option Nat)) (a : Nat) :
    xs.foldl minInfOpt (some a) = some ((xs.filterMap id).foldl min a) := by
  induction xs generalizing a with
  | nil => rfl
  | cons x t ih =>
    cases x with
    | none => simpa using ih a
    | some b => simpa [minInfOpt] using ih (min a b)

theorem foldl_min_le_init (l : List Nat) (a : Nat) : l.foldl min a ≤ a := by
  induction l generalizing a with
  | nil => exact Nat.le_refl a
  | cons b t ih =>
    exact Nat.le_trans (ih (min a b)) (Nat.min_le_left a b)

theorem foldl_min_mem (l : List Nat) (a : Nat) :
    l.foldl min a = a ∨ l.foldl min a ∈ l := by
  induction l generalizing a with
  | nil => exact Or.inl rfl
  | cons b t ih =>
    rcases ih (min a b) with h | h
    · rw [List.foldl_cons, h]
      rcases min_cases a b with ⟨h1, _⟩ | ⟨h1, _⟩
      · exact Or.inl h1
      · exact Or.inr (by rw [h1]; exact List.mem_cons_self b t)
    · exact Or.inr (List.mem_cons_of_mem b h)

theorem foldl_min_le (l : List Nat) (a : Nat) :
    ∀ y ∈ l, l.foldl min a ≤ y := by
  induction l generalizing a with
  | nil => intro y hy; cases hy
  | cons b t ih =>
    intro y hy
    rcases List.mem_cons.mp hy with rfl | hy
    · exact Nat.le_trans (foldl_min_le_init t (min a y)) (Nat.min_le_right a y)
    · exact ih (min a b) y hy

theorem foldl_minInfOpt_none_spec (xs : List (Option Nat)) (m : Nat)
    (h : xs.foldl minInfOpt none = some m) :
    m ∈ xs.filterMap id ∧ ∀ y ∈ xs.filterMap id, m ≤ y := by
  induction xs with
  | nil => cases h
  | cons x t ih =>
    cases x with
    | none => simpa using ih (by simpa using h)
    | some a =>
      rw [List.foldl_cons] at h
      have h' : t.foldl minInfOpt (some a) = some m := h
      rw [foldl_minInfOpt_some] at h'
      have hm : m = (t.filterMap id).foldl min a := (Option.some_inj.mp h').symm
      constructor
      · rcases foldl_min_mem (t.filterMap id) a with he | he
        · simp [hm, he]
        · simp only [List.filterMap_cons, id]
          exact List.mem_cons_of_mem a (hm ▸ he)
      · intro y hy
        simp only [List.filterMap_cons, id] at hy
        rcases List.mem_cons.mp hy with rfl | hy'
        · exact hm ▸ foldl_min_le_init (t.filterMap id) y
        · exact hm ▸ foldl_min_le (t.filterMap id) a y hy'

theorem foldl_minInfOpt_none_eq_none (xs : List (Option Nat)) :
    xs.foldl minInfOpt none = none ↔ xs.filterMap id = [] := by
  induction xs with
  | nil => simp
  | cons x t ih =>
    cases x with
    | none => simpa using ih
    | some a =>
      simp only [List.foldl_cons, List.filterMap_cons, id]
      rw [show minInfOpt none (some a) = some a from rfl, foldl_minInfOpt_some]
      simp

/-- Closed form of _updateDrawParams: when every set attribute has its
accessor (no TypeError), the result is determined by the min-folds over
the per-location contributions, the element buffer, and the
vertexCount-finite assertion. -/
theorem updateDrawParams_eq (st : VAState) :
    updateDrawParams st =
      if (List.range st.vertexArrayObject.MAX_ATTRIBUTES).all (locOk st) then
        match ((List.range st.vertexArrayObject.MAX_ATTRIBUTES).map
            (locVertexCount st)).foldl minInfOpt none with
        | none => none
        | some vc =>
          some ⟨st.elements.isSome, someInstancedAttr st, 0, vc,
            (((List.range st.vertexArrayObject.MAX_ATTRIBUTES).map
                (locInstanceCount st)).foldl minInfOpt none).getD 0,
            st.elements.map (fun el => el.getElementCount el.accessor),
            st.elements.map (fun el => el.type)⟩
      else none := by
  unfold updateDrawParams
  rw [foldlM_updateDP]
  by_cases hall :
      (List.range st.vertexArrayObject.MAX_ATTRIBUTES).all (locOk st)
  · simp only [hall, if_true, Option.bind_eq_bind, Option.some_bind]
    cases hel : st.elements with
    | none =>
      cases hvc : ((List.range st.vertexArrayObject.MAX_ATTRIBUTES).map
          (locVertexCount st)).foldl minInfOpt none with
      | none => simp [initialDrawParams, hvc, someInstancedAttr]
      | some vc => simp [initialDrawParams, hvc, someInstancedAttr]
    | some el =>
      cases hvc : ((List.range st.vertexArrayObject.MAX_ATTRIBUTES).map
          (locVertexCount st)).foldl minInfOpt none with
      | none => simp [initialDrawParams, hvc, someInstancedAttr]
      | some vc => simp [initialDrawParams, hvc, someInstancedAttr]
  · simp [hall]

theorem filterMap_id_map (f : α → Option β) (l : List α) :
    (l.map f).filterMap id = l.filterMap f := by
  rw [List.filterMap_map]
  rfl

/-- C1: for every attribute state (with no stale cache), getDrawParams
returns draw parameters where isInstanced is true iff some set
attribute's accessor has divisor > 0; vertexCount is the minimum of
buffer.getVertexCount(accessor) over the buffer-valued attributes whose
accessor divisor is not > 0; instanceCount is the minimum of
buffer.getVertexCount(accessor) over the buffer-valued attributes whose
accessor divisor is > 0, or 0 if there are none; and isIndexed is true
with indexType the element buffer's type iff an element buffer is set. -/
theorem claim1_drawParams_correct (st st' : VAState) (dp : DrawParamsF)
    (hcache : st.drawParams = none)
    (h : getDrawParams st = some (st', dp)) :
    dp.isInstanced = someInstancedAttr st
    ∧ dp.vertexCount ∈ vertexCountList st
    ∧ (∀ y ∈ vertexCountList st, dp.vertexCount ≤ y)
    ∧ (instanceCountList st = [] → dp.instanceCount = 0)
    ∧ (instanceCountList st ≠ [] →
        dp.instanceCount ∈ instanceCountList st
        ∧ ∀ y ∈ instanceCountList st, dp.instanceCount ≤ y)
    ∧ dp.isIndexed = st.elements.isSome
    ∧ (∀ el, st.elements = some el → dp.indexType = some el.type) := by
  have hupd : updateDrawParams st = some dp := by
    unfold getDrawParams at h
    rw [hcache] at h
    cases hu : updateDrawParams st with
    | none => rw [hu] at h; cases h
    | some dp' =>
      rw [hu, Option.some_inj] at h
      have h2 : dp' = dp := congrArg Prod.snd h
      exact congrArg some h2
  rw [updateDrawParams_eq] at hupd
  by_cases hall :
      (List.range st.vertexArrayObject.MAX_ATTRIBUTES).all (locOk st)
  · rw [if_pos hall] at hupd
    cases hvc : ((List.range st.vertexArrayObject.MAX_ATTRIBUTES).map
        (locVertexCount st)).foldl minInfOpt none with
    | none => rw [hvc] at hupd; cases hupd
    | some vc =>
      rw [hvc] at hupd
      have hdp := (Option.some_inj.mp hupd).symm
      subst hdp
      have hvspec := foldl_minInfOpt_none_spec _ _ hvc
      rw [filterMap_id_map] at hvspec
      refine ⟨rfl, hvspec.1, hvspec.2, ?_, ?_, rfl, ?_⟩
      · intro hempty
        have : ((List.range st.vertexArrayObject.MAX_ATTRIBUTES).map
            (locInstanceCount st)).foldl minInfOpt none = none := by
          rw [foldl_minInfOpt_none_eq_none, filterMap_id_map]
          exact hempty
        simp [this]
      · intro hne
        cases hic : ((List.range st.vertexArrayObject.MAX_ATTRIBUTES).map
            (locInstanceCount st)).foldl minInfOpt none with
        | none =>
          rw [foldl_minInfOpt_none_eq_none, filterMap_id_map] at hic
          exact absurd hic hne
        | some m =>
          have hispec := foldl_minInfOpt_none_spec _ _ hic
          rw [filterMap_id_map] at hispec
          simp only [hic, Option.getD_some]
          exact hispec
      · intro el hel
        simp [hel]
  · rw [if_neg hall] at hupd; cases hupd

/-- The merged accessor setBuffer/setConstant store: configuration info
(or new Accessor()) overridden by accessor1 then accessor2. -/
def resolvedAccessor (st : VAState) (k : LocOrName) (a1 a2 : Accessor) :
    Accessor :=
  (match getAttributeInfo st k with
   | some info => info.accessor
   | none => Accessor.empty).getOptions a1 a2

/-- Closed form of setBuffer. -/
theorem setBuffer_eq (st : VAState) (k : LocOrName) (b : Buffer)
    (acc : Accessor) :
    setBuffer st k b acc =
      if b.target == GL_ELEMENT_ARRAY_BUFFER then
        .ok { st with elements := some b, drawParams := none }
      else
        match getAttributeIndex st.configuration k with
        | none => .ok { st with unused := k :: st.unused }
        | some location =>
          if (resolvedAccessor st k b.accessor acc).size.isSome
              && (resolvedAccessor st k b.accessor acc).type.isSome then
            if 0 ≤ location then
              .ok { st with
                values := listSet st.values location.toNat (some (.buf b)),
                accessors := listSet st.accessors location.toNat
                  (some (resolvedAccessor st k b.accessor acc)),
                drawParams := none }
            else .ok st
          else
            .error
              "assert failed: Number.isFinite(size) and Number.isFinite(type)"
      := by
  unfold setBuffer setElements setElementBuffer clearDrawParams
    resolveLocationAndAccessor resolvedAccessor
  by_cases ht : (b.target == GL_ELEMENT_ARRAY_BUFFER) = true
  · simp [ht]
  · simp only [ht, Bool.false_eq_true, if_false]
    cases hg : getAttributeIndex st.configuration k with
    | none => simp [Except.map]
    | some location =>
      by_cases hs :
          ((match getAttributeInfo st k with
            | some info => info.accessor
            | none => Accessor.empty).getOptions b.accessor acc).size.isSome
          && ((match getAttributeInfo st k with
            | some info => info.accessor
            | none => Accessor.empty).getOptions b.accessor acc).type.isSome
      · by_cases hl : (0 : Int) ≤ location
        · simp [hs, hl, Except.map]
        · simp [hs, hl, Except.map]
      · simp [hs, Except.map]

/-- Closed form of setConstant. -/
theorem setConstant_eq (st : VAState) (k : LocOrName) (v : AttrValue)
    (acc : Accessor) :
    setConstant st k v acc =
      match getAttributeIndex st.configuration k with
      | none => .ok { st with unused := k :: st.unused }
      | some location =>
        if (resolvedAccessor st k Accessor.empty acc).size.isSome
            && (resolvedAccessor st k Accessor.empty acc).type.isSome then
          if 0 ≤ location then
            .ok { st with
              values := listSet st.values location.toNat (some v),
              accessors := listSet st.accessors location.toNat
                (some (resolvedAccessor st k Accessor.empty acc)),
              drawParams := none }
          else .ok st
        else
          .error
            "assert failed: Number.isFinite(size) and Number.isFinite(type)"
      := by
  unfold setConstant clearDrawParams resolveLocationAndAccessor
    resolvedAccessor normalizeConstantArrayValue
  cases hg : getAttributeIndex st.configuration k with
  | none => simp [Except.map]
  | some location =>
    by_cases hs :
        ((match getAttributeInfo st k with
          | some info => info.accessor
          | none => Accessor.empty).getOptions Accessor.empty acc).size.isSome
        && ((match getAttributeInfo st k with
          | some info => info.accessor
          | none => Accessor.empty).getOptions Accessor.empty acc).type.isSome
    · by_cases hl : (0 : Int) ≤ location
      · simp [hs, hl, Except.map]
      · simp [hs, hl, Except.map]
    · simp [hs, Except.map]

/-- C3: the only failure points of the module are assertions, modelled as
the error/none outcomes; the vertexCount-finite assertion of
_updateDrawParams holds in every state whose set attributes all carry
their accessor and in which at least one buffer-valued attribute with a
non-instanced accessor is set, and under that precondition getDrawParams
does not fail. -/
theorem claim3_assert_holds (st : VAState)
    (hok : ∀ loc, locOk st loc = true)
    (loc : Nat) (b : Buffer) (a : Accessor)
    (hloc : loc < st.vertexArrayObject.MAX_ATTRIBUTES)
    (hv : st.values.getD loc none = some (.buf b))
    (ha : st.accessors.getD loc none = some a)
    (hni : a.isInstanced = false) :
    (updateDrawParams st).isSome = true
    ∧ (getDrawParams st).isSome = true := by
  have hlvc : locVertexCount st loc = some (b.getVertexCount a) := by
    unfold locVertexCount
    rw [hv, ha]
    simp [hni]
  have hall : (List.range st.vertexArrayObject.MAX_ATTRIBUTES).all
      (locOk st) = true :=
    List.all_eq_true.mpr fun l _ => hok l
  have hmem : b.getVertexCount a ∈
      ((List.range st.vertexArrayObject.MAX_ATTRIBUTES).map
        (locVertexCount st)).filterMap id := by
    apply List.mem_filterMap.mpr
    exact ⟨some (b.getVertexCount a),
      hlvc ▸ List.mem_map_of_mem (locVertexCount st) (List.mem_range.mpr hloc),
      rfl⟩
  have hupd : (updateDrawParams st).isSome = true := by
    rw [updateDrawParams_eq, if_pos hall]
    cases hvc : ((List.range st.vertexArrayObject.MAX_ATTRIBUTES).map
        (locVertexCount st)).foldl minInfOpt none with
    | none =>
      rw [foldl_minInfOpt_none_eq_none] at hvc
      rw [hvc] at hmem
      cases hmem
    | some vc => rfl
  refine ⟨hupd, ?_⟩
  unfold getDrawParams
  cases hc : st.drawParams with
  | some dp => rfl
  | none =>
    cases hu : updateDrawParams st with
    | none => rw [hu] at hupd; cases hupd
    | some dp => rfl

/-- C8: a buffer whose target is GL.ELEMENT_ARRAY_BUFFER is stored as the
element buffer by setBuffer (elements becomes the buffer, drawParams is
cleared) with the values and accessors tables untouched, whatever the
locationOrName argument. -/
theorem claim8_elementTargetBuffer (st : VAState) (k : LocOrName)
    (b : Buffer) (acc : Accessor) (h : b.target = GL_ELEMENT_ARRAY_BUFFER) :
    setBuffer st k b acc =
      .ok { st with elements := some b, drawParams := none } := by
  rw [setBuffer_eq]
  simp [h]

/-- C8 witness. -/
theorem claim8_elementTargetBuffer_witness :
    (⟨GL_ELEMENT_ARRAY_BUFFER, Accessor.empty, 5123, fun _ => 0,
        fun _ => 12⟩ : Buffer).target = GL_ELEMENT_ARRAY_BUFFER
    ∧ ∀ st : VAState,
        setBuffer st (.name "indices")
          ⟨GL_ELEMENT_ARRAY_BUFFER, Accessor.empty, 5123, fun _ => 0,
            fun _ => 12⟩ Accessor.empty =
        .ok { st with
          elements := some ⟨GL_ELEMENT_ARRAY_BUFFER, Accessor.empty, 5123,
            fun _ => 0, fun _ => 12⟩,
          drawParams := none } :=
  ⟨rfl, fun st =>
    claim8_elementTargetBuffer st (.name "indices") _ Accessor.empty rfl⟩

/-- C9: setElementBuffer always nulls drawParams; setBuffer and
setConstant null it whenever the location they resolve is >= 0 and the
call returns; and with a null cache the next getDrawParams recomputes the
parameters via _updateDrawParams. -/
theorem claim9_invalidate :
    (∀ st el, (setElementBuffer st el).drawParams = none)
    ∧ (∀ st k b acc (n : Int) st',
        getAttributeIndex st.configuration k = some n → 0 ≤ n →
        setBuffer st k b acc = .ok st' → st'.drawParams = none)
    ∧ (∀ st k v acc (n : Int) st',
        getAttributeIndex st.configuration k = some n → 0 ≤ n →
        setConstant st k v acc = .ok st' → st'.drawParams = none)
    ∧ (∀ st st2 dp, st.drawParams = none →
        getDrawParams st = some (st2, dp) → updateDrawParams st = some dp) := by
  refine ⟨fun st el => rfl, ?_, ?_, ?_⟩
  · intro st k b acc n st' hg hn h
    rw [setBuffer_eq] at h
    by_cases ht : (b.target == GL_ELEMENT_ARRAY_BUFFER) = true
    · rw [if_pos ht] at h
      cases h
      rfl
    · rw [if_neg ht, hg] at h
      by_cases hs : ((resolvedAccessor st k b.accessor acc).size.isSome
          && (resolvedAccessor st k b.accessor acc).type.isSome) = true
      · simp only [hs, if_true, hn] at h
        cases h
        rfl
      · simp only [hs, if_false, Bool.false_eq_true] at h
        cases h
  · intro st k v acc n st' hg hn h
    rw [setConstant_eq, hg] at h
    by_cases hs : ((resolvedAccessor st k Accessor.empty acc).size.isSome
        && (resolvedAccessor st k Accessor.empty acc).type.isSome) = true
    · simp only [hs, if_true, hn] at h
      cases h
      rfl
    · simp only [hs, if_false, Bool.false_eq_true] at h
      cases h
  · intro st st2 dp hc h
    unfold getDrawParams at h
    rw [hc] at h
    cases hu : updateDrawParams st with
    | none => rw [hu] at h; cases h
    | some dp' =>
      rw [hu, Option.some_inj] at h
      exact congrArg some (congrArg Prod.snd h)

/-- setBuffer never touches configuration, the delegate object or
bindOnUse. -/
theorem setBuffer_frame (st : VAState) (k : LocOrName) (b : Buffer)
    (acc : Accessor) (st' : VAState) (h : setBuffer st k b acc = .ok st') :
    st'.configuration = st.configuration
    ∧ st'.vertexArrayObject = st.vertexArrayObject
    ∧ st'.bindOnUse = st.bindOnUse := by
  rw [setBuffer_eq] at h
  by_cases ht : (b.target == GL_ELEMENT_ARRAY_BUFFER) = true
  · rw [if_pos ht] at h
    cases h
    exact ⟨rfl, rfl, rfl⟩
  · rw [if_neg ht] at h
    cases hg : getAttributeIndex st.configuration k with
    | none =>
      rw [hg] at h
      cases h
      exact ⟨rfl, rfl, rfl⟩
    | some n =>
      rw [hg] at h
      by_cases hs : ((resolvedAccessor st k b.accessor acc).size.isSome
          && (resolvedAccessor st k b.accessor acc).type.isSome) = true
      · simp only [hs, if_true] at h
        by_cases hl : (0 : Int) ≤ n
        · rw [if_pos hl] at h
          cases h
          exact ⟨rfl, rfl, rfl⟩
        · rw [if_neg hl] at h
          cases h
          exact ⟨rfl, rfl, rfl⟩
      · simp only [hs, if_false, Bool.false_eq_true] at h
        cases h

/-- setConstant never touches configuration, the delegate object,
bindOnUse or elements. -/
theorem setConstant_frame (st : VAState) (k : LocOrName) (v : AttrValue)
    (acc : Accessor) (st' : VAState) (h : setConstant st k v acc = .ok st') :
    st'.configuration = st.configuration
    ∧ st'.vertexArrayObject = st.vertexArrayObject
    ∧ st'.bindOnUse = st.bindOnUse := by
  rw [setConstant_eq] at h
  cases hg : getAttributeIndex st.configuration k with
  | none =>
    rw [hg] at h
    cases h
    exact ⟨rfl, rfl, rfl⟩
  | some n =>
    rw [hg] at h
    by_cases hs : ((resolvedAccessor st k Accessor.empty acc).size.isSome
        && (resolvedAccessor st k Accessor.empty acc).type.isSome) = true
    · simp only [hs, if_true] at h
      by_cases hl : (0 : Int) ≤ n
      · rw [if_pos hl] at h
        cases h
        exact ⟨rfl, rfl, rfl⟩
      · rw [if_neg hl] at h
        cases h
        exact ⟨rfl, rfl, rfl⟩
    · simp only [hs, if_false, Bool.false_eq_true] at h
      cases h

/-- One setAttributes dispatch step never touches configuration, the
delegate object or bindOnUse. -/
theorem setAttributesStep_frame (st : VAState) (k : LocOrName) (v : JSValue)
    (st' : VAState) (h : setAttributesStep st k v = .ok st') :
    st'.configuration = st.configuration
    ∧ st'.vertexArrayObject = st.vertexArrayObject
    ∧ st'.bindOnUse = st.bindOnUse := by
  cases v with
  | buf b => exact setBuffer_frame st k b Accessor.empty st' h
  | typedArray xs => exact setConstant_frame st k _ Accessor.empty st' h
  | other => cases h
  | plainArray xs =>
    cases xs with
    | nil => exact setConstant_frame st k _ Accessor.empty st' h
    | cons e rest =>
      cases e with
      | buf b => exact setBuffer_frame st k b (secondAsAccessor rest) st' h
      | accessorObj a => exact setConstant_frame st k _ Accessor.empty st' h
      | num n => exact setConstant_frame st k _ Accessor.empty st' h

/-- setAttributes never touches configuration, the delegate object or
bindOnUse. -/
theorem setAttributes_frame (attrs : List (LocOrName × JSValue))
    (st st' : VAState) (h : setAttributes st attrs = .ok st') :
    st'.configuration = st.configuration
    ∧ st'.vertexArrayObject = st.vertexArrayObject
    ∧ st'.bindOnUse = st.bindOnUse := by
  induction attrs generalizing st with
  | nil =>
    cases h
    exact ⟨rfl, rfl, rfl⟩
  | cons kv rest ih =>
    unfold setAttributes at h
    rw [List.foldlM_cons] at h
    cases hstep : setAttributesStep st kv.1 kv.2 with
    | error e => rw [hstep] at h; cases h
    | ok s1 =>
      rw [hstep] at h
      have h1 := setAttributesStep_frame st kv.1 kv.2 s1 hstep
      have h2 := ih s1 h
      exact ⟨h2.1.trans h1.1, h2.2.1.trans h1.2.1, h2.2.2.trans h1.2.2⟩

/-- The configuration branches of setProps only touch configuration. -/
theorem applyConfigProps_frame (st : VAState) (props : VAProps) :
    (applyConfigProps st props).vertexArrayObject = st.vertexArrayObject
    ∧ (applyConfigProps st props).bindOnUse = st.bindOnUse
    ∧ (applyConfigProps st props).values = st.values
    ∧ (applyConfigProps st props).accessors = st.accessors := by
  unfold applyConfigProps
  cases props.program <;> cases props.configuration <;>
    exact ⟨rfl, rfl, rfl, rfl⟩

/-- The elements branch of setProps only touches elements/drawParams. -/
theorem applyElemsProps_frame (st : VAState) (props : VAProps) :
    (applyElemsProps st props).vertexArrayObject = st.vertexArrayObject
    ∧ (applyElemsProps st props).bindOnUse = st.bindOnUse
    ∧ (applyElemsProps st props).values = st.values
    ∧ (applyElemsProps st props).accessors = st.accessors
    ∧ (applyElemsProps st props).configuration = st.configuration := by
  unfold applyElemsProps setElements setElementBuffer clearDrawParams
  cases props.elements <;> exact ⟨rfl, rfl, rfl, rfl, rfl⟩

/-- setProps never touches the delegate object or bindOnUse. -/
theorem setProps_frame (st : VAState) (props : VAProps) (st' : VAState)
    (h : setProps st props = .ok st') :
    st'.vertexArrayObject = st.vertexArrayObject
    ∧ st'.bindOnUse = st.bindOnUse := by
  unfold setProps at h
  cases hattrs : props.attributes with
  | none =>
    rw [hattrs] at h
    simp only [pure, Except.pure] at h
    cases h
    have h1 := applyElemsProps_frame (applyConfigProps st props) props
    have h2 := applyConfigProps_frame st props
    exact ⟨h1.1.trans h2.1, h1.2.1.trans h2.2.1⟩
  | some attrs =>
    rw [hattrs] at h
    cases hsa : setAttributes (applyConfigProps st props) attrs with
    | error e =>
      simp only [hsa, bind, Except.bind] at h
      cases h
    | ok s1 =>
      simp only [hsa, pure, Except.pure] at h
      cases h
      have h1 := applyElemsProps_frame s1 props
      have h2 := setAttributes_frame attrs (applyConfigProps st props) s1 hsa
      have h3 := applyConfigProps_frame st props
      exact ⟨h1.1.trans (h2.2.1.trans h3.1),
        h1.2.1.trans (h2.2.2.trans h3.2.1)⟩

/-- JavaScript array assignment: the length after xs[i] = v is
max(length, i + 1). -/
theorem listSet_length (xs : List (Option α)) (i : Nat) (v : Option α) :
    (listSet xs i v).length = max xs.length (i + 1) := by
  unfold listSet
  by_cases h : i < xs.length
  · rw [if_pos h, List.length_set]
    omega
  · rw [if_neg h]
    simp only [List.length_append, List.length_replicate, List.length_cons,
      List.length_nil]
    omega

/-! Concrete instances used by the witnesses. -/

/-- A concrete vertex buffer: float triples, 7 vertices. -/
def bufVertex : Buffer :=
  ⟨GL_ARRAY_BUFFER, ⟨some 3, some 5126, none⟩, 5126, fun _ => 7, fun _ => 21⟩

/-- A concrete instance buffer: float pairs with divisor 1, 5 instances. -/
def bufInstance : Buffer :=
  ⟨GL_ARRAY_BUFFER, ⟨some 2, some 5126, some 1⟩, 5126, fun _ => 5,
    fun _ => 10⟩

/-- A concrete index buffer: target GL.ELEMENT_ARRAY_BUFFER, unsigned
shorts, 12 indices. -/
def bufElems : Buffer :=
  ⟨GL_ELEMENT_ARRAY_BUFFER, Accessor.empty, 5123, fun _ => 0, fun _ => 12⟩

/-- A concrete empty state: no configuration, two empty attribute slots. -/
def stEmpty2 : VAState :=
  ⟨none, none, [none, none], [none, none], [], none, ⟨false, 2⟩, false,
    false⟩

/-- A concrete populated state: a vertex buffer at location 0, an
instance buffer at location 1, an element buffer set. -/
def stFull2 : VAState :=
  ⟨none, some bufElems,
    [some (.buf bufVertex), some (.buf bufInstance)],
    [some bufVertex.accessor, some bufInstance.accessor],
    [], none, ⟨false, 2⟩, false, false⟩

/-- The draw parameters the model computes for stFull2. -/
def dpFull2 : DrawParamsF := ⟨true, true, 0, 7, 5, some 12, some 5123⟩

/-- C1 witness: the populated concrete state evaluates getDrawParams to
parameters satisfying the claim. -/
theorem claim1_drawParams_correct_witness :
    dpFull2.isInstanced = someInstancedAttr stFull2
    ∧ dpFull2.vertexCount ∈ vertexCountList stFull2
    ∧ (∀ y ∈ vertexCountList stFull2, dpFull2.vertexCount ≤ y)
    ∧ (instanceCountList stFull2 = [] → dpFull2.instanceCount = 0)
    ∧ (instanceCountList stFull2 ≠ [] →
        dpFull2.instanceCount ∈ instanceCountList stFull2
        ∧ ∀ y ∈ instanceCountList stFull2, dpFull2.instanceCount ≤ y)
    ∧ dpFull2.isIndexed = stFull2.elements.isSome
    ∧ (∀ el, stFull2.elements = some el → dpFull2.indexType = some el.type) :=
  claim1_drawParams_correct stFull2
    { stFull2 with drawParams := some dpFull2 } dpFull2 rfl rfl

/-- C3 witness: in the populated concrete state every set attribute
carries its accessor and a non-instanced vertex buffer is set, so
updateDrawParams and getDrawParams succeed. -/
theorem claim3_assert_holds_witness :
    (updateDrawParams stFull2).isSome = true
    ∧ (getDrawParams stFull2).isSome = true :=
  claim3_assert_holds stFull2
    (fun loc => by
      match loc with
      | 0 => rfl
      | 1 => rfl
      | (n + 2) => rfl)
    0 bufVertex bufVertex.accessor (by decide) rfl rfl rfl

/-- The state setBuffer produces from stEmpty2 (with a stale cache) at
location 0 with bufVertex. -/
def stAfterC9 : VAState :=
  { stEmpty2 with
    values := [some (.buf bufVertex), none],
    accessors := [some bufVertex.accessor, none],
    drawParams := none }

/-- C9 witness: a setBuffer call over a state with a cached drawParams
record nulls the cache. -/
theorem claim9_invalidate_witness :
    setBuffer { stEmpty2 with drawParams := some dpFull2 } (.loc 0)
      bufVertex Accessor.empty = .ok stAfterC9
    ∧ stAfterC9.drawParams = none :=
  ⟨rfl,
    claim9_invalidate.2.1 { stEmpty2 with drawParams := some dpFull2 }
      (.loc 0) bufVertex Accessor.empty 0 stAfterC9 rfl (le_refl 0) rfl⟩

/-- A state with a cached drawParams record used by the C6
counterexample. -/
def stC6 : VAState := { stEmpty2 with drawParams := some dpFull2 }

/-- C6 counterexample: the name foo does not resolve to a location >= 0
(it resolves to -1 without a configuration), yet setBuffer with an
element-array-target buffer is not ignored: it stores the element buffer
and nulls drawParams, changing drawParams from a cached record to null. -/
theorem claim6_counterexample :
    getAttributeIndex stC6.configuration (.name "foo") = some (-1)
    ∧ ((-1 : Int) < 0)
    ∧ stC6.drawParams = some dpFull2
    ∧ (setBuffer stC6 (.name "foo") bufElems Accessor.empty).toOption.map
        VAState.drawParams = some none :=
  ⟨rfl, by decide, rfl, rfl⟩

/-- C6 amended: for a locationOrName that does not resolve to a location
>= 0, setConstant leaves the values/accessors tables and drawParams
unchanged, and setBuffer does too provided the buffer's target is not
GL.ELEMENT_ARRAY_BUFFER; an element-array-target buffer is instead always
stored as the element buffer (clearing drawParams), regardless of the
location. -/
theorem claim6_amended (st : VAState) (k : LocOrName)
    (hk : ∀ n : Int, getAttributeIndex st.configuration k = some n → n < 0) :
    (∀ b acc st', (b.target == GL_ELEMENT_ARRAY_BUFFER) = false →
        setBuffer st k b acc = .ok st' →
        st'.values = st.values ∧ st'.accessors = st.accessors
        ∧ st'.drawParams = st.drawParams)
    ∧ (∀ v acc st', setConstant st k v acc = .ok st' →
        st'.values = st.values ∧ st'.accessors = st.accessors
        ∧ st'.drawParams = st.drawParams)
    ∧ (∀ b acc, b.target = GL_ELEMENT_ARRAY_BUFFER →
        setBuffer st k b acc =
          .ok { st with elements := some b, drawParams := none }) := by
  refine ⟨?_, ?_, ?_⟩
  · intro b acc st' ht h
    rw [setBuffer_eq] at h
    rw [ht] at h
    simp only [Bool.false_eq_true, if_false] at h
    cases hg : getAttributeIndex st.configuration k with
    | none =>
      rw [hg] at h
      cases h
      exact ⟨rfl, rfl, rfl⟩
    | some n =>
      rw [hg] at h
      by_cases hs : ((resolvedAccessor st k b.accessor acc).size.isSome
          && (resolvedAccessor st k b.accessor acc).type.isSome) = true
      · have hn : ¬(0 : Int) ≤ n := by
          have := hk n hg
          omega
        simp only [hs, if_true, hn, if_false] at h
        cases h
        exact ⟨rfl, rfl, rfl⟩
      · simp only [hs, if_false, Bool.false_eq_true] at h
        cases h
  · intro v acc st' h
    rw [setConstant_eq] at h
    cases hg : getAttributeIndex st.configuration k with
    | none =>
      rw [hg] at h
      cases h
      exact ⟨rfl, rfl, rfl⟩
    | some n =>
      rw [hg] at h
      by_cases hs : ((resolvedAccessor st k Accessor.empty acc).size.isSome
          && (resolvedAccessor st k Accessor.empty acc).type.isSome) = true
      · have hn : ¬(0 : Int) ≤ n := by
          have := hk n hg
          omega
        simp only [hs, if_true, hn, if_false] at h
        cases h
        exact ⟨rfl, rfl, rfl⟩
      · simp only [hs, if_false, Bool.false_eq_true] at h
        cases h
  · intro b acc ht
    rw [setBuffer_eq]
    simp [ht]

/-- C6 witness: a name unknown to any configuration leaves the tables of
a concrete state untouched through setBuffer. -/
theorem claim6_amended_witness :
    setBuffer stEmpty2 (.name "nope") bufVertex Accessor.empty =
      .ok stEmpty2
    ∧ (stEmpty2.values = stEmpty2.values
       ∧ stEmpty2.accessors = stEmpty2.accessors
       ∧ stEmpty2.drawParams = stEmpty2.drawParams) :=
  ⟨rfl,
    (claim6_amended stEmpty2 (.name "nope")
        (fun n h => by
          simp only [stEmpty2, getAttributeIndex, Option.some_inj] at h
          omega)).1
      bufVertex Accessor.empty stEmpty2 rfl rfl⟩

/-- C4 counterexample: with MAX_ATTRIBUTES = 2 and both tables at length
2, setBuffer at the numeric location 2 grows both tables to length 3, so
the lengths are no longer exactly MAX_ATTRIBUTES. -/
theorem claim4_counterexample :
    stEmpty2.vertexArrayObject.MAX_ATTRIBUTES = 2
    ∧ stEmpty2.values.length = 2
    ∧ stEmpty2.accessors.length = 2
    ∧ (setBuffer stEmpty2 (.loc 2) bufVertex Accessor.empty).toOption.map
        (fun s => (s.values.length, s.accessors.length)) = some (3, 3) :=
  ⟨rfl, rfl, rfl, rfl⟩

/-- reset restores both tables to length exactly MAX_ATTRIBUTES. -/
theorem reset_lengths (st : VAState) :
    (reset st).values.length = st.vertexArrayObject.MAX_ATTRIBUTES
    ∧ (reset st).accessors.length = st.vertexArrayObject.MAX_ATTRIBUTES :=
  ⟨List.length_replicate _ _, List.length_replicate _ _⟩

/-- setBuffer preserves the table lengths when every location it can
resolve is below MAX_ATTRIBUTES. -/
theorem setBuffer_lengths (st : VAState) (k : LocOrName) (b : Buffer)
    (acc : Accessor) (st' : VAState)
    (hv : st.values.length = st.vertexArrayObject.MAX_ATTRIBUTES)
    (ha : st.accessors.length = st.vertexArrayObject.MAX_ATTRIBUTES)
    (hk : ∀ n : Int, getAttributeIndex st.configuration k = some n →
      n < (st.vertexArrayObject.MAX_ATTRIBUTES : Int))
    (h : setBuffer st k b acc = .ok st') :
    st'.values.length = st'.vertexArrayObject.MAX_ATTRIBUTES
    ∧ st'.accessors.length = st'.vertexArrayObject.MAX_ATTRIBUTES := by
  have hf := setBuffer_frame st k b acc st' h
  rw [hf.2.1]
  rw [setBuffer_eq] at h
  by_cases ht : (b.target == GL_ELEMENT_ARRAY_BUFFER) = true
  · rw [if_pos ht] at h
    cases h
    exact ⟨hv, ha⟩
  · rw [if_neg ht] at h
    cases hg : getAttributeIndex st.configuration k with
    | none =>
      rw [hg] at h
      cases h
      exact ⟨hv, ha⟩
    | some n =>
      rw [hg] at h
      by_cases hs : ((resolvedAccessor st k b.accessor acc).size.isSome
          && (resolvedAccessor st k b.accessor acc).type.isSome) = true
      · simp only [hs, if_true] at h
        by_cases hl : (0 : Int) ≤ n
        · rw [if_pos hl] at h
          cases h
          have hn := hk n hg
          constructor
          · rw [listSet_length, hv]
            omega
          · rw [listSet_length, ha]
            omega
        · rw [if_neg hl] at h
          cases h
          exact ⟨hv, ha⟩
      · simp only [hs, if_false, Bool.false_eq_true] at h
        cases h

/-- setConstant preserves the table lengths when every location it can
resolve is below MAX_ATTRIBUTES. -/
theorem setConstant_lengths (st : VAState) (k : LocOrName) (v : AttrValue)
    (acc : Accessor) (st' : VAState)
    (hv : st.values.length = st.vertexArrayObject.MAX_ATTRIBUTES)
    (ha : st.accessors.length = st.vertexArrayObject.MAX_ATTRIBUTES)
    (hk : ∀ n : Int, getAttributeIndex st.configuration k = some n →
      n < (st.vertexArrayObject.MAX_ATTRIBUTES : Int))
    (h : setConstant st k v acc = .ok st') :
    st'.values.length = st'.vertexArrayObject.MAX_ATTRIBUTES
    ∧ st'.accessors.length = st'.vertexArrayObject.MAX_ATTRIBUTES := by
  have hf := setConstant_frame st k v acc st' h
  rw [hf.2.1]
  rw [setConstant_eq] at h
  cases hg : getAttributeIndex st.configuration k with
  | none =>
    rw [hg] at h
    cases h
    exact ⟨hv, ha⟩
  | some n =>
    rw [hg] at h
    by_cases hs : ((resolvedAccessor st k Accessor.empty acc).size.isSome
        && (resolvedAccessor st k Accessor.empty acc).type.isSome) = true
    · simp only [hs, if_true] at h
      by_cases hl : (0 : Int) ≤ n
      · rw [if_pos hl] at h
        cases h
        have hn := hk n hg
        constructor
        · rw [listSet_length, hv]
          omega
        · rw [listSet_length, ha]
          omega
      · rw [if_neg hl] at h
        cases h
        exact ⟨hv, ha⟩
    · simp only [hs, if_false, Bool.false_eq_true] at h
      cases h

/-- One setAttributes step preserves the table lengths when every
location it can resolve is below MAX_ATTRIBUTES. -/
theorem setAttributesStep_lengths (st : VAState) (k : LocOrName)
    (v : JSValue) (st' : VAState)
    (hv : st.values.length = st.vertexArrayObject.MAX_ATTRIBUTES)
    (ha : st.accessors.length = st.vertexArrayObject.MAX_ATTRIBUTES)
    (hk : ∀ n : Int, getAttributeIndex st.configuration k = some n →
      n < (st.vertexArrayObject.MAX_ATTRIBUTES : Int))
    (h : setAttributesStep st k v = .ok st') :
    st'.values.length = st'.vertexArrayObject.MAX_ATTRIBUTES
    ∧ st'.accessors.length = st'.vertexArrayObject.MAX_ATTRIBUTES := by
  cases v with
  | buf b => exact setBuffer_lengths st k b Accessor.empty st' hv ha hk h
  | typedArray xs => exact setConstant_lengths st k _ Accessor.empty st' hv ha hk h
  | other => cases h
  | plainArray xs =>
    cases xs with
    | nil => exact setConstant_lengths st k _ Accessor.empty st' hv ha hk h
    | cons e rest =>
      cases e with
      | buf b => exact setBuffer_lengths st k b (secondAsAccessor rest) st' hv ha hk h
      | accessorObj a => exact setConstant_lengths st k _ Accessor.empty st' hv ha hk h
      | num n => exact setConstant_lengths st k _ Accessor.empty st' hv ha hk h

/-- setAttributes preserves the table lengths when every location its
entries can resolve is below MAX_ATTRIBUTES. -/
theorem setAttributes_lengths (attrs : List (LocOrName × JSValue))
    (st st' : VAState)
    (hv : st.values.length = st.vertexArrayObject.MAX_ATTRIBUTES)
    (ha : st.accessors.length = st.vertexArrayObject.MAX_ATTRIBUTES)
    (hk : ∀ kv ∈ attrs, ∀ n : Int,
      getAttributeIndex st.configuration kv.1 = some n →
      n < (st.vertexArrayObject.MAX_ATTRIBUTES : Int))
    (h : setAttributes st attrs = .ok st') :
    st'.values.length = st'.vertexArrayObject.MAX_ATTRIBUTES
    ∧ st'.accessors.length = st'.vertexArrayObject.MAX_ATTRIBUTES := by
  induction attrs generalizing st with
  | nil =>
    cases h
    exact ⟨hv, ha⟩
  | cons kv rest ih =>
    unfold setAttributes at h
    rw [List.foldlM_cons] at h
    cases hstep : setAttributesStep st kv.1 kv.2 with
    | error e => rw [hstep] at h; cases h
    | ok s1 =>
      rw [hstep] at h
      have hsl := setAttributesStep_lengths st kv.1 kv.2 s1 hv ha
        (hk kv (List.mem_cons_self kv rest)) hstep
      have hsf := setAttributesStep_frame st kv.1 kv.2 s1 hstep
      exact ih s1 hsl.1 hsl.2
        (fun kv2 hm n hg => by
          rw [hsf.1] at hg
          rw [hsf.2.1]
          exact hk kv2 (List.mem_cons_of_mem kv hm) n hg) h

/-- C4 amended: reset restores both tables to length exactly
MAX_ATTRIBUTES (so construction and initialization with in-range
attributes do as well), and setBuffer, setConstant and setAttributes
preserve the lengths provided every location they resolve is below
MAX_ATTRIBUTES; an out-of-range resolved location >= MAX_ATTRIBUTES
instead grows both tables to location + 1. -/
theorem claim4_amended_tables :
    (∀ st, (reset st).values.length = st.vertexArrayObject.MAX_ATTRIBUTES
      ∧ (reset st).accessors.length = st.vertexArrayObject.MAX_ATTRIBUTES)
    ∧ (∀ st k b acc st',
        st.values.length = st.vertexArrayObject.MAX_ATTRIBUTES →
        st.accessors.length = st.vertexArrayObject.MAX_ATTRIBUTES →
        (∀ n : Int, getAttributeIndex st.configuration k = some n →
          n < (st.vertexArrayObject.MAX_ATTRIBUTES : Int)) →
        setBuffer st k b acc = .ok st' →
        st'.values.length = st'.vertexArrayObject.MAX_ATTRIBUTES
        ∧ st'.accessors.length = st'.vertexArrayObject.MAX_ATTRIBUTES)
    ∧ (∀ st k v acc st',
        st.values.length = st.vertexArrayObject.MAX_ATTRIBUTES →
        st.accessors.length = st.vertexArrayObject.MAX_ATTRIBUTES →
        (∀ n : Int, getAttributeIndex st.configuration k = some n →
          n < (st.vertexArrayObject.MAX_ATTRIBUTES : Int)) →
        setConstant st k v acc = .ok st' →
        st'.values.length = st'.vertexArrayObject.MAX_ATTRIBUTES
        ∧ st'.accessors.length = st'.vertexArrayObject.MAX_ATTRIBUTES)
    ∧ (∀ attrs st st',
        st.values.length = st.vertexArrayObject.MAX_ATTRIBUTES →
        st.accessors.length = st.vertexArrayObject.MAX_ATTRIBUTES →
        (∀ kv ∈ attrs, ∀ n : Int,
          getAttributeIndex st.configuration kv.1 = some n →
          n < (st.vertexArrayObject.MAX_ATTRIBUTES : Int)) →
        setAttributes st attrs = .ok st' →
        st'.values.length = st'.vertexArrayObject.MAX_ATTRIBUTES
        ∧ st'.accessors.length = st'.vertexArrayObject.MAX_ATTRIBUTES)
    ∧ (∀ st k b acc st' (n : Int),
        st.values.length = st.vertexArrayObject.MAX_ATTRIBUTES →
        st.accessors.length = st.vertexArrayObject.MAX_ATTRIBUTES →
        getAttributeIndex st.configuration k = some n →
        (st.vertexArrayObject.MAX_ATTRIBUTES : Int) ≤ n →
        (b.target == GL_ELEMENT_ARRAY_BUFFER) = false →
        ((resolvedAccessor st k b.accessor acc).size.isSome
          && (resolvedAccessor st k b.accessor acc).type.isSome) = true →
        setBuffer st k b acc = .ok st' →
        st'.values.length = n.toNat + 1
        ∧ st'.accessors.length = n.toNat + 1) := by
  refine ⟨reset_lengths,
    fun st k b acc st' => setBuffer_lengths st k b acc st',
    fun st k v acc st' => setConstant_lengths st k v acc st',
    fun attrs st st' => setAttributes_lengths attrs st st', ?_⟩
  intro st k b acc st' n hv ha hg hge ht hs h
  rw [setBuffer_eq, ht] at h
  simp only [Bool.false_eq_true, if_false, hg] at h
  have hl : (0 : Int) ≤ n := by omega
  simp only [hs, if_true, hl, if_pos] at h
  cases h
  have hlen : st.vertexArrayObject.MAX_ATTRIBUTES ≤ n.toNat := by omega
  constructor
  · rw [listSet_length, hv]
    omega
  · rw [listSet_length, ha]
    omega

/-- C4 witness: after reset of a concrete state both tables have length
exactly MAX_ATTRIBUTES, and an in-range setBuffer preserves that. -/
theorem claim4_amended_tables_witness :
    ((reset stFull2).values.length = 2
      ∧ (reset stFull2).accessors.length = 2)
    ∧ (stAfterC9.values.length = stAfterC9.vertexArrayObject.MAX_ATTRIBUTES
      ∧ stAfterC9.accessors.length
        = stAfterC9.vertexArrayObject.MAX_ATTRIBUTES) :=
  ⟨claim4_amended_tables.1 stFull2,
    claim4_amended_tables.2.1 stEmpty2 (.loc 0) bufVertex Accessor.empty
      stAfterC9 rfl rfl
      (fun n hg => by
        have h0 : (0 : Int) = n := Option.some_inj.mp hg
        show n < ((2 : Nat) : Int)
        omega)
      rfl⟩

/-- C5: whenever bindForUse(length, func) returns for a finite length,
it has returned exactly the value produced by func, the delegate was
bound immediately before func was invoked and unbound immediately after
it returned, and bind(func) is bindForUse(4, func). -/
theorem claim5_bindForUse {α : Type} (st : VAState) (n : Int) (r : α)
    (st' : VAState) (v : α) (evs : List Ev)
    (h : bindForUse st (some n) r = .ok (st', v, evs)) :
    v = r
    ∧ (∃ pre post,
        evs = pre ++ [Ev.bindVAO, Ev.invoke, Ev.unbindVAO] ++ post
        ∧ Ev.invoke ∉ pre ∧ Ev.invoke ∉ post)
    ∧ (∀ r2 : α, bindVA st r2 = bindForUse st (some 4) r2) := by
  unfold bindForUse at h
  cases hb : bindBuffers (bindForUsePre st (some n)) with
  | error e =>
    simp only [hb, bind, Except.bind] at h
    cases h
  | ok s1 =>
    simp only [hb, bind, Except.bind] at h
    cases h
    exact ⟨rfl,
      ⟨[Ev.bindVAO, Ev.unbindVAO], [Ev.bindVAO, Ev.unbindVAO], rfl,
        by decide, by decide⟩,
      fun r2 => rfl⟩

/-- C5 witness: a concrete successful bindForUse run. -/
theorem claim5_bindForUse_witness :
    (42 : Nat) = 42
    ∧ (∃ pre post,
        [Ev.bindVAO, Ev.unbindVAO, Ev.bindVAO, Ev.invoke, Ev.unbindVAO,
          Ev.bindVAO, Ev.unbindVAO] =
          pre ++ [Ev.bindVAO, Ev.invoke, Ev.unbindVAO] ++ post
        ∧ Ev.invoke ∉ pre ∧ Ev.invoke ∉ post)
    ∧ (∀ r2 : Nat, bindVA stEmpty2 r2 = bindForUse stEmpty2 (some 4) r2) :=
  claim5_bindForUse stEmpty2 4 42 { stEmpty2 with buffer := true } 42 _ rfl

/-- C7: after construction the delegate is the real vertex-array-object
when VertexArrayObject.isSupported(gl) holds and the shimmed default
array otherwise; one of the two always holds. -/
theorem claim7_constructor (gl : GLContext) (opts : VAProps) (st' : VAState)
    (h : construct gl opts = .ok st') :
    st'.vertexArrayObject =
      (if VertexArrayObject.isSupported gl then VertexArrayObject.newArray gl
       else VertexArrayObject.getDefaultArray gl)
    ∧ (st'.vertexArrayObject = VertexArrayObject.newArray gl
       ∨ st'.vertexArrayObject = VertexArrayObject.getDefaultArray gl) := by
  unfold construct initVA at h
  have hv : st'.vertexArrayObject =
      (if VertexArrayObject.isSupported gl then VertexArrayObject.newArray gl
       else VertexArrayObject.getDefaultArray gl) :=
    (setProps_frame _ opts st' h).1
  refine ⟨hv, ?_⟩
  by_cases hs : VertexArrayObject.isSupported gl = true
  · exact Or.inl (by rw [hv, if_pos hs])
  · exact Or.inr (by rw [hv, if_neg hs])

/-- C7 witness: constructing over a supporting context yields the real
delegate. -/
theorem claim7_constructor_witness :
    stEmpty2.vertexArrayObject =
      (if VertexArrayObject.isSupported ⟨true, 2⟩ then
        VertexArrayObject.newArray ⟨true, 2⟩
       else VertexArrayObject.getDefaultArray ⟨true, 2⟩)
    ∧ (stEmpty2.vertexArrayObject = VertexArrayObject.newArray ⟨true, 2⟩
       ∨ stEmpty2.vertexArrayObject
          = VertexArrayObject.getDefaultArray ⟨true, 2⟩) :=
  claim7_constructor ⟨true, 2⟩ VAProps.empty stEmpty2 rfl

/-- C10: setProps never changes this.bindOnUse — the bindOnUse branch
only reassigns the local props parameter — and after initialize it
remains the false that initialize wrote. -/
theorem claim10_bindOnUse :
    (∀ st props st', setProps st props = .ok st' →
        st'.bindOnUse = st.bindOnUse)
    ∧ (∀ st props st', initVA st props = .ok st' → st'.bindOnUse = false) := by
  refine ⟨fun st props st' h => (setProps_frame st props st' h).2, ?_⟩
  intro st props st' h
  unfold initVA at h
  exact (setProps_frame _ props st' h).2

/-- The props object of the C10 witness: only a bindOnUse key. -/
def propsBind : VAProps := ⟨none, none, none, none, some true⟩

/-- C10 witness: a setProps call whose props carry a bindOnUse key leaves
bindOnUse unchanged, and an initialize leaves it false. -/
theorem claim10_bindOnUse_witness :
    setProps stEmpty2 propsBind = .ok stEmpty2
    ∧ stEmpty2.bindOnUse = stEmpty2.bindOnUse
    ∧ stEmpty2.bindOnUse = false :=
  ⟨rfl, claim10_bindOnUse.1 stEmpty2 propsBind stEmpty2 rfl,
    claim10_bindOnUse.2 stEmpty2 propsBind stEmpty2 rfl⟩

/-- Whether a plain JavaScript array's first element is a Buffer. -/
def headIsBuffer (xs : List JSElem) : Bool :=
  match xs with
  | .buf _ :: _ => true
  | _ => false

/-- C2: setAttributes dispatches each entry by value shape — a Buffer
goes to setBuffer; a non-empty array headed by a Buffer goes to setBuffer
with the second element as accessor; a typed array, or a plain array not
headed by a Buffer, goes to setConstant; any other value makes
setAttributes throw Error(ERR_ATTRIBUTE_TYPE). -/
theorem claim2_setAttributes_dispatch (st : VAState) (k : LocOrName)
    (rest : List (LocOrName × JSValue)) :
    (∀ b, setAttributes st ((k, .buf b) :: rest) =
      setBuffer st k b Accessor.empty >>= fun s => setAttributes s rest)
    ∧ (∀ b xs, setAttributes st ((k, .plainArray (.buf b :: xs)) :: rest) =
      setBuffer st k b (secondAsAccessor xs) >>= fun s =>
        setAttributes s rest)
    ∧ (∀ xs, setAttributes st ((k, .typedArray xs) :: rest) =
      setConstant st k (.constTyped xs) Accessor.empty >>= fun s =>
        setAttributes s rest)
    ∧ (∀ xs, headIsBuffer xs = false →
      setAttributes st ((k, .plainArray xs) :: rest) =
      setConstant st k (.constArray (plainArrayNums xs)) Accessor.empty
        >>= fun s => setAttributes s rest)
    ∧ setAttributes st ((k, .other) :: rest) = .error ERR_ATTRIBUTE_TYPE := by
  refine ⟨fun b => rfl, fun b xs => rfl, fun xs => rfl, fun xs hx => ?_, rfl⟩
  cases xs with
  | nil => rfl
  | cons e t =>
    cases e with
    | buf b => cases hx
    | accessorObj a => rfl
    | num m => rfl

/-- C2 witness: the plain-array-constant conjunct at a concrete empty
array, and the throwing conjunct. -/
theorem claim2_setAttributes_dispatch_witness :
    (setAttributes stEmpty2 [((.loc 0), .plainArray [])] =
      setConstant stEmpty2 (.loc 0) (.constArray (plainArrayNums []))
        Accessor.empty >>= fun s => setAttributes s [])
    ∧ setAttributes stEmpty2 [((.loc 0), .other)]
        = .error ERR_ATTRIBUTE_TYPE :=
  ⟨(claim2_setAttributes_dispatch stEmpty2 (.loc 0) []).2.2.2.1 [] rfl,
    (claim2_setAttributes_dispatch stEmpty2 (.loc 0) []).2.2.2.2⟩

end VertexArrayJS
